import Mathlib

/-!
Formal model of the Diabetes-Prediction repository: the predictor and report
generator in `diabetes_app.py`, the trainer in `train_model.py`, and the
alternative report template in `tempCodeRunnerFile.py`.

Modelling conventions: Python strings are Lean strings viewed through their
character lists, Python floats are rationals, filesystem existence checks are
a boolean-valued oracle on paths, and an interactive run is a trace of
prompt/print events together with a final outcome.
-/

namespace DiabetesApp

/-- Characters of a Python string after `str.strip`: leading and trailing
whitespace removed. -/
def stripChars (cs : List Char) : List Char :=
  ((cs.dropWhile Char.isWhitespace).reverse.dropWhile Char.isWhitespace).reverse

/-- Model of Python `str.strip` on a string. -/
def stripStr (s : String) : String := ⟨stripChars s.data⟩

/-- Model of Python `str.lower` (character-wise case folding, as applied to the
webcam yes/no answer and, in the alternative template, to the verdict). -/
def lowerStr (s : String) : String := ⟨s.data.map Char.toLower⟩

/-- One step of accumulating the value of a digit run; a non-digit character
poisons the accumulator, modelling a `ValueError`. -/
def parseNatAux : Option Nat → Char → Option Nat
  | some acc, c => if c.isDigit then some (acc * 10 + (c.toNat - 48)) else none
  | none, _ => none

/-- Value of a nonempty all-digit character run, `none` otherwise. -/
def parseNatChars (cs : List Char) : Option Nat :=
  if cs.isEmpty then none else cs.foldl parseNatAux (some 0)

/-- Model of Python `int()` on an already-stripped string: an optional sign
followed by one or more digits; anything else raises `ValueError`, modelled as
`none`. -/
def parseInt (s : String) : Option Int :=
  match s.data with
  | '-' :: cs => (parseNatChars cs).map (fun n => -(n : Int))
  | '+' :: cs => (parseNatChars cs).map (fun n => (n : Int))
  | cs => (parseNatChars cs).map (fun n => (n : Int))

/-- Numeric value of a digit run, treating every character as a digit. -/
def natOfDigits (cs : List Char) : Nat :=
  cs.foldl (fun a c => a * 10 + (c.toNat - 48)) 0

/-- Unsigned part of Python `float()`: digits, optionally followed by a point
and more digits, with at least one digit overall. -/
def parseFloatMag (cs : List Char) : Option ℚ :=
  let ip := cs.takeWhile Char.isDigit
  let rest := cs.dropWhile Char.isDigit
  match rest with
  | [] => if ip.isEmpty then none else some ((natOfDigits ip : ℚ))
  | '.' :: fp =>
    if fp.all Char.isDigit && !(ip.isEmpty && fp.isEmpty) then
      some ((natOfDigits ip : ℚ) + (natOfDigits fp : ℚ) / ((10 : ℚ) ^ fp.length))
    else none
  | _ => none

/-- Model of Python `float()` on an already-stripped string. -/
def parseFloat (s : String) : Option ℚ :=
  match s.data with
  | '-' :: cs => (parseFloatMag cs).map (fun q => -q)
  | '+' :: cs => parseFloatMag cs
  | cs => parseFloatMag cs

/-- Decimal digit characters of `n`, least significant first; the fuel in the
first argument makes the recursion structural, and `n` itself is enough fuel. -/
def natDigitsAux : Nat → Nat → List Char
  | 0, _ => []
  | _ + 1, 0 => []
  | fuel + 1, n => Nat.digitChar (n % 10) :: natDigitsAux fuel (n / 10)

/-- Decimal string of a natural number, as Python `str` prints it. -/
def natStr (n : Nat) : String :=
  if n = 0 then "0" else ⟨(natDigitsAux n n).reverse⟩

/-- Decimal string of an integer. -/
def intStr (i : Int) : String :=
  if i < 0 then "-" ++ natStr i.natAbs else natStr i.natAbs

/-- Model of `format_prob` in diabetes_app.py: the percentage `p*100` printed
with one decimal place and a trailing percent sign.  Float formatting is
modelled over the rationals, rounding the tenths digit to nearest. -/
def format_prob (p : ℚ) : String :=
  let t : Int := ⌊p * 1000 + 1/2⌋
  (if t < 0 then "-" else "") ++ natStr (t.natAbs / 10) ++ "." ++ natStr (t.natAbs % 10) ++ "%"

/-- Verdict string built by the three-way branch at lines 261-269 of
diabetes_app.py. -/
def predictionResult (p : ℚ) : String :=
  if p ≥ 3/5 then
    "The person is LIKELY Diabetic (Probability: " ++ format_prob p ++ ")"
  else if p ≤ 2/5 then
    "The person is NOT Diabetic (Probability: " ++ format_prob p ++ ")"
  else
    "Borderline case (Probability: " ++ format_prob p ++ "). Further medical tests are recommended."

/-- Abstract three-band verdict, following the same branch structure. -/
inductive Band
  | diabetic
  | notDiabetic
  | borderline
deriving DecidableEq, Repr

/-- Band selected by the thresholds 0.6 and 0.4 of diabetes_app.py. -/
def predBand (p : ℚ) : Band :=
  if p ≥ 3/5 then .diabetic else if p ≤ 2/5 then .notDiabetic else .borderline

/-- Constant `DECISION_THRESHOLD = 0.5` from line 26 of diabetes_app.py. -/
def DECISION_THRESHOLD : ℚ := 1/2

/-- Model of Python `int()` applied to a float: truncation toward zero. -/
def pyInt (q : ℚ) : ℤ := if q < 0 then -⌊-q⌋ else ⌊q⌋

/-- Proposition modelling the Python test `sub in s`: `sub` occurs as a
contiguous substring of `s`. -/
def strContains (s sub : String) : Prop := sub.data <:+: s.data

instance (s sub : String) : Decidable (strContains s sub) :=
  List.decidableInfix _ _

example : strContains "cannot do" "not" := by decide

example : parseInt "42" = some 42 := by decide

example : parseInt "4a2" = none := by decide

example : (parseFloat "28.5").isSome = true := rfl

example : parseFloat "abc" = none := rfl

example : natStr 50 = "50" := by decide

/-! Report document model: the flowable elements appended to `story` by
`create_diabetes_report_pdf` in diabetes_app.py (lines 102-185).  Tables are
kept opaque except for the patient-details block, which records whether the
patient photo was nested next to it. -/

/-- Flowable elements of the report story. -/
inductive Elem
  | para (text style : String)
  | spacer (h : Nat)
  | image (path : String)
  | detailsTable
  | detailsWithPhoto (photoPath : String)
  | metricsTbl
  | pageBreak
deriving DecidableEq, Repr

/-- Doctor metadata dictionary from lines 28-33 of diabetes_app.py. -/
structure DoctorInfo where
  name : String
  qualification : String
  hospital : String
  contact : String
deriving DecidableEq, Repr

/-- Constant `doctor_info` from diabetes_app.py. -/
def doctor_info : DoctorInfo :=
  { name := "Dr. A. Sharma"
  , qualification := "MD (Internal Medicine), Diabetologist"
  , hospital := "City Care Hospital, Delhi"
  , contact := "+91-9876543210" }

/-- Constant `logo_path = None` from line 35 of diabetes_app.py. -/
def logo_path : Option String := none

/-- Story elements produced by the scanned-reports block (lines 172-178):
nothing when the collected list is empty, otherwise a page break, a heading,
and an image plus spacer for each path that exists on disk. -/
def scannedSection (fsEx : String → Bool) (scanned : List String) : List Elem :=
  if scanned.isEmpty then []
  else
    Elem.pageBreak :: Elem.para "<b>Attached Scanned Reports</b>" "Heading2" ::
      (scanned.map (fun r => if fsEx r then [Elem.image r, Elem.spacer 8] else [])).flatten

/-- Story elements preceding the scanned-reports block (lines 104-169). -/
def storyMain (fsEx : String → Bool) (now : String) (predResult : String)
    (docInfo : DoctorInfo) (logo : Option String) (patientPhoto : Option String) : List Elem :=
  (match logo with
   | some lg => if fsEx lg then [Elem.image lg, Elem.spacer 8] else []
   | none => [])
  ++ [Elem.para "<b>Diabetes Prediction Report</b>" "H1Blue",
      Elem.para now "SmallGray",
      Elem.spacer 10,
      Elem.para "<b>Patient Details</b>" "Heading2"]
  ++ (match patientPhoto with
      | some ph => if fsEx ph then [Elem.detailsWithPhoto ph] else [Elem.detailsTable]
      | none => [Elem.detailsTable])
  ++ [Elem.spacer 10,
      Elem.para "<b>Medical Metrics</b>" "Heading2",
      Elem.metricsTbl,
      Elem.spacer 12,
      Elem.para "<b>Prediction Result</b>" "Heading2",
      Elem.para predResult "Normal",
      Elem.para ("Decision Threshold: " ++ intStr (pyInt (DECISION_THRESHOLD * 100)) ++ "%") "SmallGray",
      Elem.spacer 12,
      Elem.para "<b>Certified By</b>" "Heading2",
      Elem.para ("Doctor: " ++ docInfo.name) "Normal",
      Elem.para ("Qualification: " ++ docInfo.qualification) "Normal",
      Elem.para ("Hospital: " ++ docInfo.hospital) "Normal",
      Elem.para ("Contact: " ++ docInfo.contact) "Normal",
      Elem.spacer 12]

/-- Story elements following the scanned-reports block (lines 181-185). -/
def storyFoot : List Elem :=
  [Elem.spacer 16,
   Elem.para "Disclaimer: This is an AI-assisted report and should not replace professional medical advice." "SmallGray"]

/-- Full story assembled by `create_diabetes_report_pdf`. -/
def storyOf (fsEx : String → Bool) (now : String) (predResult : String)
    (docInfo : DoctorInfo) (logo : Option String) (patientPhoto : Option String)
    (scanned : List String) : List Elem :=
  storyMain fsEx now predResult docInfo logo patientPhoto
    ++ scannedSection fsEx scanned ++ storyFoot

/-! Alternative report template from tempCodeRunnerFile.py (lines 107-132):
a binary verdict badge decided by the substring test `"not" in
prediction_result.lower()`. -/

namespace TempTemplate

/-- Boolean `not_diabetic` flag from line 108 of tempCodeRunnerFile.py. -/
def notDiabeticFlag (predResult : String) : Bool :=
  decide (strContains (lowerStr predResult) "not")

/-- Badge caption from line 110 of tempCodeRunnerFile.py. -/
def badgeText (predResult : String) : String :=
  if notDiabeticFlag predResult then "NOT DIABETIC" else "DIABETIC"

/-- Badge colour from line 109 of tempCodeRunnerFile.py. -/
def badgeColorHex (predResult : String) : String :=
  if notDiabeticFlag predResult then "#17A34A" else "#D7263D"

/-- Recommendation paragraph from lines 122-126 of tempCodeRunnerFile.py. -/
def interpText (predResult : String) : String :=
  if notDiabeticFlag predResult then
    "Recommendation: Maintain healthy lifestyle, regular screening, and follow-up."
  else
    "Recommendation: Consult your physician for confirmatory tests and management plan."

end TempTemplate

/-! Trainer model from train_model.py, and the feature-order convention shared
with the predictor. -/

/-- Column identifiers of the training dataset. -/
inductive Col
  | pregnancies
  | glucose
  | bloodPressure
  | skinThickness
  | insulin
  | bmi
  | pedigreeFunction
  | age
  | outcome
deriving DecidableEq, Repr

/-- Modelled from the spec: the column order of the dataset file
`diabetes.csv`, which is not part of the repository sources.  Per the spec,
the column named Outcome is the label and all other columns are features in
the fixed order pregnancies, glucose, blood pressure, skin thickness, insulin,
BMI, pedigree function, age. -/
def datasetColumns : List Col :=
  [Col.pregnancies, Col.glucose, Col.bloodPressure, Col.skinThickness,
   Col.insulin, Col.bmi, Col.pedigreeFunction, Col.age, Col.outcome]

/-- Feature columns used by the trainer: `X = data.drop("Outcome", axis=1)`
(line 11 of train_model.py) keeps every column except Outcome, in order. -/
def trainerFeatureColumns : List Col :=
  datasetColumns.filter (fun c => c ≠ Col.outcome)

/-- Fixed feature order of the predictor, from line 255 of diabetes_app.py:
`features = [[pregnancies, glucose, bp, skin, insulin, bmi, dpf, age_val]]`. -/
def predictorFeatureOrder : List Col :=
  [Col.pregnancies, Col.glucose, Col.bloodPressure, Col.skinThickness,
   Col.insulin, Col.bmi, Col.pedigreeFunction, Col.age]

/-- File the trainer persists the fitted model to (line 27 of train_model.py). -/
def trainerModelFile : String := "diabetes_model.pkl"

/-- File the trainer persists the fitted scaler to (line 28 of train_model.py). -/
def trainerScalerFile : String := "scaler.pkl"

/-- File the predictor loads the model from (lines 249 and 251 of diabetes_app.py). -/
def predictorModelFile : String := "diabetes_model.pkl"

/-- File the predictor loads the scaler from (lines 250 and 252 of diabetes_app.py). -/
def predictorScalerFile : String := "scaler.pkl"

/-! Interactive run model for the `__main__` block of diabetes_app.py.  A run
consumes a fixed environment (user answers, camera behaviour, filesystem, and
the two persisted artifacts viewed as functions) and yields a chronological
trace of prompt/print/write events together with a final outcome. -/

/-- Observable events of a run, in chronological order. -/
inductive Event
  | prompt (msg : String)
  | printed (msg : String)
  | wrotePdf (path : String)
deriving DecidableEq, Repr

/-- Key pressed during one iteration of the webcam loop. -/
inductive Key
  | esc
  | space
  | other
deriving DecidableEq, Repr

/-- One iteration of input to the webcam loop: whether `cap.read()` succeeded
and which key `cv2.waitKey` reported. -/
structure Frame where
  ret : Bool
  key : Key
deriving DecidableEq, Repr

/-- Result of `capture_photo_via_webcam`: its console events, the returned
photo path, whether the device was acquired (`cap.isOpened()`), whether
`cap.release()` ran, and whether the loop is still running because no
terminating iteration arrived. -/
structure CamTrace where
  events : List Event
  result : Option String
  acquired : Bool
  released : Bool
  hung : Bool
deriving DecidableEq, Repr

/-- Webcam loop of lines 50-64: each iteration either fails to read, sees ESC,
sees SPACE and saves, or continues.  Returns the print events of the
terminating iteration and the saved path, or `none` when the supplied
iterations run out with the loop still going. -/
def captureLoop (outPath : String) : List Frame → Option (List Event × Option String)
  | [] => none
  | f :: fs =>
    if f.ret = false then some ([Event.printed "❌ Cannot read from webcam."], none)
    else
      match f.key with
      | Key.esc => some ([Event.printed "ℹ️ Capture skipped."], none)
      | Key.space => some ([Event.printed ("✅ Saved photo: " ++ outPath)], some outPath)
      | Key.other => captureLoop outPath fs

/-- Model of `capture_photo_via_webcam` (lines 38-72 of diabetes_app.py). -/
def capture_photo_via_webcam (hasCv2 opened : Bool) (frames : List Frame)
    (outPath : String) : CamTrace :=
  if hasCv2 = false then
    { events := [Event.printed "❌ OpenCV (cv2) not available. Falling back to manual photo path."]
    , result := none, acquired := false, released := false, hung := false }
  else if opened = false then
    { events := [Event.printed "❌ Webcam not accessible. Check camera permissions or device."]
    , result := none, acquired := false, released := false, hung := false }
  else
    match captureLoop outPath frames with
    | none =>
      { events := [Event.printed "📸 Press SPACE to capture photo, ESC to skip"]
      , result := none, acquired := true, released := false, hung := true }
    | some (evs, saved) =>
      { events := Event.printed "📸 Press SPACE to capture photo, ESC to skip" :: evs
      , result := saved, acquired := true, released := true, hung := false }

/-- Parsed clinical metrics, lines 227-234 of diabetes_app.py. -/
structure Metrics where
  pregnancies : Int
  glucose : Int
  bp : Int
  skin : Int
  insulin : Int
  bmi : ℚ
  dpf : ℚ
  age : Int
deriving DecidableEq, Repr

/-- Feature row `[[pregnancies, glucose, bp, skin, insulin, bmi, dpf, age_val]]`
from line 255 of diabetes_app.py. -/
def featuresOf (m : Metrics) : List ℚ :=
  [(m.pregnancies : ℚ), (m.glucose : ℚ), (m.bp : ℚ), (m.skin : ℚ),
   (m.insulin : ℚ), m.bmi, m.dpf, (m.age : ℚ)]

/-- Value of a feature column on a parsed metrics record. -/
def featVal (m : Metrics) : Col → ℚ
  | Col.pregnancies => (m.pregnancies : ℚ)
  | Col.glucose => (m.glucose : ℚ)
  | Col.bloodPressure => (m.bp : ℚ)
  | Col.skinThickness => (m.skin : ℚ)
  | Col.insulin => (m.insulin : ℚ)
  | Col.bmi => m.bmi
  | Col.pedigreeFunction => m.dpf
  | Col.age => (m.age : ℚ)
  | Col.outcome => 0

/-- Environment a run executes in: every interactive answer, the camera
behaviour, the filesystem oracle, and the persisted scaler and classifier as
the functions they denote. -/
structure Env where
  idIn : String
  nameIn : String
  ageIn : String
  genderIn : String
  contactIn : String
  useCamIn : String
  hasCv2 : Bool
  camOpened : Bool
  frames : List Frame
  manualPhotoIn : String
  pregIn : String
  glucIn : String
  bpIn : String
  skinIn : String
  insulinIn : String
  bmiIn : String
  dpfIn : String
  scannedIn : List String
  fs : String → Bool
  scaler : List ℚ → List ℚ
  model : List ℚ → ℚ
  now : String

/-- Prompt messages of the five identity questions (lines 200-204). -/
def idPrompts : List Event :=
  [Event.prompt "Enter Patient ID: ",
   Event.prompt "Enter Patient Name: ",
   Event.prompt "Enter Age: ",
   Event.prompt "Enter Gender: ",
   Event.prompt "Enter Contact Number: "]

/-- Result of the photo phase: console events, the chosen photo path, and
whether the webcam loop hung. -/
structure PhotoRes where
  events : List Event
  photo : Option String
  hung : Bool

/-- Photo phase of lines 206-218: the webcam yes/no prompt, the optional
capture, and the manual-path fallback prompt. -/
def photoPhase (env : Env) : PhotoRes :=
  let e0 := [Event.prompt "Capture patient photo with webcam? (y/n): "]
  let useCam := lowerStr (stripStr env.useCamIn)
  if useCam = "y" then
    let outPhoto := "reports/" ++ stripStr env.idIn ++ "_photo.jpg"
    let cam := capture_photo_via_webcam env.hasCv2 env.camOpened env.frames outPhoto
    if cam.hung then
      { events := e0 ++ cam.events, photo := none, hung := true }
    else
      match cam.result with
      | some p => { events := e0 ++ cam.events, photo := some p, hung := false }
      | none =>
        let e2 := [Event.prompt "Enter path to patient photo (leave blank to skip): "]
        let manual := stripStr env.manualPhotoIn
        { events := e0 ++ cam.events ++ e2
        , photo := if manual = "" then none else some manual
        , hung := false }
  else
    let e2 := [Event.prompt "Enter path to patient photo (leave blank to skip): "]
    let manual := stripStr env.manualPhotoIn
    { events := e0 ++ e2
    , photo := if manual = "" then none else some manual
    , hung := false }

/-- Prompt messages of the seven numeric metric questions, in order. -/
def metricPrompts : List Event :=
  [Event.prompt "Pregnancies: ",
   Event.prompt "Glucose: ",
   Event.prompt "Blood Pressure: ",
   Event.prompt "Skin Thickness: ",
   Event.prompt "Insulin: ",
   Event.prompt "BMI: ",
   Event.prompt "Diabetes Pedigree Function: "]

/-- Metrics phase of lines 227-234: one prompt per metric, parsed on the spot;
a `ValueError` aborts immediately, before any later prompt.  The age value is
parsed from the earlier identity answer and issues no further prompt. -/
def metricsPhase (env : Env) : List Event × Option Metrics :=
  let p1 := Event.prompt "Pregnancies: "
  match parseInt (stripStr env.pregIn) with
  | none => ([p1], none)
  | some preg =>
  let p2 := Event.prompt "Glucose: "
  match parseInt (stripStr env.glucIn) with
  | none => ([p1, p2], none)
  | some gluc =>
  let p3 := Event.prompt "Blood Pressure: "
  match parseInt (stripStr env.bpIn) with
  | none => ([p1, p2, p3], none)
  | some bp =>
  let p4 := Event.prompt "Skin Thickness: "
  match parseInt (stripStr env.skinIn) with
  | none => ([p1, p2, p3, p4], none)
  | some skin =>
  let p5 := Event.prompt "Insulin: "
  match parseInt (stripStr env.insulinIn) with
  | none => ([p1, p2, p3, p4, p5], none)
  | some ins =>
  let p6 := Event.prompt "BMI: "
  match parseFloat (stripStr env.bmiIn) with
  | none => ([p1, p2, p3, p4, p5, p6], none)
  | some bmi =>
  let p7 := Event.prompt "Diabetes Pedigree Function: "
  match parseFloat (stripStr env.dpfIn) with
  | none => ([p1, p2, p3, p4, p5, p6, p7], none)
  | some dpf =>
  match parseInt (stripStr env.ageIn) with
  | none => ([p1, p2, p3, p4, p5, p6, p7], none)
  | some age =>
    ([p1, p2, p3, p4, p5, p6, p7],
     some { pregnancies := preg, glucose := gluc, bp := bp, skin := skin
          , insulin := ins, bmi := bmi, dpf := dpf, age := age })

/-- Prompt of the scanned-reports collection loop (line 274). -/
def scannedPromptMsg : String := "Enter path of scanned report image (blank to finish): "

/-- Scanned-reports loop of lines 272-280: prompt until a blank answer,
collecting the paths that exist and printing a warning for the rest.  The
second component is `none` when the answers run out before a blank one, which
in Python would raise `EOFError` at the next `input()`. -/
def scannedLoop (fs : String → Bool) : List String → List Event × Option (List String)
  | [] => ([], none)
  | r :: rs =>
    let e := Event.prompt scannedPromptMsg
    let rt := stripStr r
    if rt = "" then ([e], some [])
    else if fs rt then
      let (evs, res) := scannedLoop fs rs
      (e :: evs, (res.map (fun l => rt :: l)))
    else
      let (evs, res) := scannedLoop fs rs
      (e :: Event.printed "⚠️ File not found, skipped." :: evs, res)

/-- Model of `safe_load` (lines 74-77): `true` with no events when the path
exists, otherwise `false` together with the error print that precedes
`sys.exit(1)`. -/
def safe_load (fs : String → Bool) (path kind : String) : Bool × List Event :=
  if fs path then (true, [])
  else (false, [Event.printed ("❌ Required " ++ kind ++ " not found: " ++ path)])

/-- Final outcome of a run. -/
inductive Outcome
  | hung
  | crashed
  | exitedFailure (code : Nat)
  | reported (proba : ℚ) (verdict : String) (story : List Elem)
deriving DecidableEq, Repr

/-- Full run of the `__main__` block (lines 197-294 of diabetes_app.py). -/
def mainRun (env : Env) : List Event × Outcome :=
  let ph := photoPhase env
  let e1 := idPrompts ++ ph.events
  if ph.hung then (e1, Outcome.hung)
  else
    let mp := metricsPhase env
    let e2 := e1 ++ mp.1
    match mp.2 with
    | none => (e2, Outcome.crashed)
    | some m =>
      let loadModel := safe_load env.fs predictorModelFile "model"
      if loadModel.1 = false then (e2 ++ loadModel.2, Outcome.exitedFailure 1)
      else
        let loadScaler := safe_load env.fs predictorScalerFile "scaler"
        if loadScaler.1 = false then (e2 ++ loadScaler.2, Outcome.exitedFailure 1)
        else
          let proba := env.model (env.scaler (featuresOf m))
          let verdict := predictionResult proba
          let sl := scannedLoop env.fs env.scannedIn
          match sl.2 with
          | none => (e2 ++ sl.1, Outcome.crashed)
          | some scanned =>
            let pdfPath := "reports/diabetes_report_" ++ stripStr env.idIn ++ ".pdf"
            let story := storyOf env.fs env.now verdict doctor_info logo_path ph.photo scanned
            (e2 ++ sl.1 ++
               [Event.wrotePdf pdfPath,
                Event.printed ("✅ Report generated and saved at " ++ pdfPath)],
             Outcome.reported proba verdict story)

/-! Substring reasoning helpers: a pattern whose characters all satisfy `P`
cannot occur across a nonempty segment none of whose characters satisfy `P`,
so occurrence in a concatenation is confined to one side. -/

/-- Pattern confinement for list-prefix occurrence: an all-`P` pattern that is
a prefix of `x ++ (m ++ z)` with `m` nonempty and `P`-free is already a prefix
of `x`. -/
theorem confinedPre {α : Type} (P : α → Bool) :
    ∀ (pat x m z : List α), (∀ c ∈ pat, P c = true) → (∀ c ∈ m, P c = false) →
      m ≠ [] → pat <+: x ++ (m ++ z) → pat <+: x
  | [], _, _, _, _, _, _, _ => List.nil_prefix
  | p :: pt, [], m, z, hpat, hm, hm0, hpre => by
    match m, hm0 with
    | c :: m', _ =>
      rw [List.nil_append, List.cons_append] at hpre
      rcases List.cons_prefix_cons.mp hpre with ⟨rfl, -⟩
      have h1 := hpat p (List.mem_cons_self p pt)
      have h2 := hm p (List.mem_cons_self p m')
      simp [h1] at h2
  | p :: pt, a :: x', m, z, hpat, hm, hm0, hpre => by
    rw [List.cons_append] at hpre
    rcases List.cons_prefix_cons.mp hpre with ⟨rfl, htail⟩
    have := confinedPre P pt x' m z (fun c hc => hpat c (List.mem_cons_of_mem p hc)) hm hm0 htail
    exact List.cons_prefix_cons.mpr ⟨rfl, this⟩

/-- Pattern confinement on the left: a nonempty all-`P` pattern occurring in
`m ++ z` with `m` `P`-free occurs in `z`. -/
theorem confinedDropLeft {α : Type} (P : α → Bool) (pat : List α)
    (hpat : ∀ c ∈ pat, P c = true) (hne : pat ≠ []) :
    ∀ (m z : List α), (∀ c ∈ m, P c = false) → pat <:+: m ++ z → pat <:+: z
  | [], z, _, h => by simpa using h
  | c :: m', z, hm, h => by
    rw [List.cons_append] at h
    rcases List.infix_cons_iff.mp h with hpre | htail
    · match pat, hne with
      | p :: pt, _ =>
        rcases List.cons_prefix_cons.mp hpre with ⟨rfl, -⟩
        have h1 := hpat p (List.mem_cons_self p pt)
        have h2 := hm p (List.mem_cons_self p m')
        simp [h1] at h2
    · exact confinedDropLeft P pat hpat hne m' z (fun d hd => hm d (List.mem_cons_of_mem c hd)) htail

/-- Pattern confinement for occurrence in a concatenation around a `P`-free
nonempty middle: the occurrence lies wholly in the left or the right part. -/
theorem confinedInfix {α : Type} (P : α → Bool) (pat m z : List α)
    (hpat : ∀ c ∈ pat, P c = true) (hne : pat ≠ []) (hm : ∀ c ∈ m, P c = false)
    (hm0 : m ≠ []) :
    ∀ x : List α, pat <:+: x ++ (m ++ z) → pat <:+: x ∨ pat <:+: z
  | [], h => Or.inr (confinedDropLeft P pat hpat hne m z hm (by simpa using h))
  | a :: x', h => by
    rw [List.cons_append] at h
    rcases List.infix_cons_iff.mp h with hpre | htail
    · rw [← List.cons_append] at hpre
      exact Or.inl (confinedPre P pat (a :: x') m z hpat hm hm0 hpre).isInfix
    · rcases confinedInfix P pat m z hpat hne hm hm0 x' htail with hx | hz
      · exact Or.inl (hx.trans (List.infix_cons (List.infix_refl x')))
      · exact Or.inr hz

/-- Character set every `format_prob` output is drawn from. -/
def probChars : List Char := ['0','1','2','3','4','5','6','7','8','9','.','%','-']

theorem digitChar_mem_probChars : ∀ k, k < 10 → Nat.digitChar k ∈ probChars := by decide

theorem natDigitsAux_subset : ∀ (fuel n : Nat), ∀ c ∈ natDigitsAux fuel n, c ∈ probChars
  | 0, _ => by simp [natDigitsAux]
  | fuel + 1, 0 => by simp [natDigitsAux]
  | fuel + 1, n + 1 => by
    intro c hc
    have heq : natDigitsAux (fuel + 1) (n + 1)
        = Nat.digitChar ((n + 1) % 10) :: natDigitsAux fuel ((n + 1) / 10) := rfl
    rw [heq] at hc
    rcases List.mem_cons.mp hc with rfl | hc'
    · exact digitChar_mem_probChars _ (Nat.mod_lt _ (by omega))
    · exact natDigitsAux_subset fuel ((n + 1) / 10) c hc'

theorem natStr_subset (n : Nat) : ∀ c ∈ (natStr n).data, c ∈ probChars := by
  intro c hc
  rw [natStr] at hc
  by_cases h : n = 0
  · simp [h] at hc
    simp [hc, probChars]
  · rw [if_neg h] at hc
    exact natDigitsAux_subset n n c (List.mem_reverse.mp hc)

theorem format_prob_subset (p : ℚ) : ∀ c ∈ (format_prob p).data, c ∈ probChars := by
  intro c hc
  rw [format_prob] at hc
  simp only [String.data_append] at hc
  rcases List.mem_append.mp hc with hc1 | hcP
  rcases List.mem_append.mp hc1 with hc2 | hcF
  rcases List.mem_append.mp hc2 with hc3 | hcDot
  rcases List.mem_append.mp hc3 with hcSign | hcInt
  · by_cases ht : (⌊p * 1000 + 1/2⌋ : Int) < 0
    · rw [if_pos ht] at hcSign
      have h' : c ∈ ['-'] := hcSign
      rcases List.mem_singleton.mp h' with rfl
      decide
    · rw [if_neg ht] at hcSign
      have h' : c ∈ ([] : List Char) := hcSign
      simp at h'
  · exact natStr_subset _ c hcInt
  · have h' : c ∈ ['.'] := hcDot
    rcases List.mem_singleton.mp h' with rfl
    decide
  · exact natStr_subset _ c hcF
  · have h' : c ∈ ['%'] := hcP
    rcases List.mem_singleton.mp h' with rfl
    decide

theorem probChars_not_alpha : ∀ c ∈ probChars, c.isAlpha = false := by decide

theorem probChars_toLower : ∀ c ∈ probChars, c.toLower ∈ probChars := by decide

theorem format_prob_ne_nil (p : ℚ) : (format_prob p).data ≠ [] := by
  rw [format_prob]
  simp only [String.data_append]
  intro h
  rcases List.append_eq_nil.mp h with ⟨-, h2⟩
  exact List.cons_ne_nil _ _ h2

/-- Branch equation of the verdict for probabilities at or above 0.6. -/
theorem predictionResult_hi {p : ℚ} (h : 3/5 ≤ p) :
    predictionResult p
      = "The person is LIKELY Diabetic (Probability: " ++ format_prob p ++ ")" := by
  rw [predictionResult, if_pos (show p ≥ 3/5 from h)]

/-- Branch equation of the verdict for probabilities at or below 0.4. -/
theorem predictionResult_lo {p : ℚ} (h : p ≤ 2/5) :
    predictionResult p
      = "The person is NOT Diabetic (Probability: " ++ format_prob p ++ ")" := by
  have h1 : ¬ p ≥ 3/5 := by
    intro hge
    have : (2 : ℚ)/5 < 3/5 := by norm_num
    linarith
  rw [predictionResult, if_neg h1, if_pos h]

/-- Branch equation of the verdict for the borderline gap. -/
theorem predictionResult_mid {p : ℚ} (h1 : 2/5 < p) (h2 : p < 3/5) :
    predictionResult p
      = "Borderline case (Probability: " ++ format_prob p ++ "). Further medical tests are recommended." := by
  rw [predictionResult, if_neg (show ¬ p ≥ 3/5 from not_le.mpr h2),
    if_neg (show ¬ p ≤ 2/5 from not_le.mpr h1)]

/-- Occurrence in the left part of a concatenation. -/
theorem strContains_left {a : String} (b : String) {pat : String}
    (h : pat.data <:+: a.data) : strContains (a ++ b) pat := by
  show pat.data <:+: (a ++ b).data
  rw [String.data_append]
  exact h.trans (List.prefix_append a.data b.data).isInfix

/-- Non-occurrence of an alphabetic pattern in a string of the shape
`a ++ format_prob p ++ b` whose literal parts avoid the pattern. -/
theorem not_strContains_around_prob {a b pat : String} (p : ℚ)
    (hpat : ∀ c ∈ pat.data, c.isAlpha = true) (hne : pat.data ≠ [])
    (ha : ¬ pat.data <:+: a.data) (hb : ¬ pat.data <:+: b.data) :
    ¬ strContains (a ++ format_prob p ++ b) pat := by
  intro hcon
  have h' : pat.data <:+: a.data ++ ((format_prob p).data ++ b.data) := by
    have h0 : pat.data <:+: (a ++ format_prob p ++ b).data := hcon
    rwa [String.data_append, String.data_append, List.append_assoc] at h0
  rcases confinedInfix Char.isAlpha pat.data (format_prob p).data b.data hpat hne
      (fun c hc => probChars_not_alpha c (format_prob_subset p c hc))
      (format_prob_ne_nil p) a.data h' with h1 | h2
  · exact ha h1
  · exact hb h2

/-- C2: for every probability the verdict is a total three-band mapping with
inclusive boundaries.  At or above 0.6 the verdict text contains "Diabetic"
and contains neither "NOT" nor "Borderline"; at or below 0.4 it contains
"NOT Diabetic"; strictly between 0.4 and 0.6 it contains "Borderline"; the
boundary values 0.6 and 0.4 therefore land in the decisive bands. -/
theorem C2_verdict_bands (p : ℚ) :
    (3/5 ≤ p → strContains (predictionResult p) "Diabetic"
      ∧ ¬ strContains (predictionResult p) "NOT"
      ∧ ¬ strContains (predictionResult p) "Borderline")
    ∧ (p ≤ 2/5 → strContains (predictionResult p) "NOT Diabetic")
    ∧ (2/5 < p → p < 3/5 → strContains (predictionResult p) "Borderline") := by
  refine ⟨fun h => ?_, fun h => ?_, fun h1 h2 => ?_⟩
  · rw [predictionResult_hi h]
    refine ⟨?_, ?_, ?_⟩
    · rw [String.append_assoc]
      exact strContains_left _ (by decide)
    · refine not_strContains_around_prob p ?_ ?_ ?_ ?_ <;> decide
    · refine not_strContains_around_prob p ?_ ?_ ?_ ?_ <;> decide
  · rw [predictionResult_lo h, String.append_assoc]
    exact strContains_left _ (by decide)
  · rw [predictionResult_mid h1 h2, String.append_assoc]
    exact strContains_left _ (by decide)

/-- Witness for C2 at the boundary probabilities 0.6 and 0.4 and at 0.5. -/
theorem C2_verdict_bands_witness :
    strContains (predictionResult (3/5)) "Diabetic"
      ∧ ¬ strContains (predictionResult (3/5)) "Borderline"
      ∧ strContains (predictionResult (2/5)) "NOT Diabetic"
      ∧ strContains (predictionResult (1/2)) "Borderline" :=
  ⟨((C2_verdict_bands (3/5)).1 (by norm_num)).1,
   ((C2_verdict_bands (3/5)).1 (by norm_num)).2.2,
   (C2_verdict_bands (2/5)).2.1 (by norm_num),
   (C2_verdict_bands (1/2)).2.2 (by norm_num) (by norm_num)⟩

/-- Case folding distributes over string concatenation. -/
theorem lowerStr_append (a b : String) : lowerStr (a ++ b) = lowerStr a ++ lowerStr b := by
  apply String.ext
  show (a ++ b).data.map Char.toLower = (lowerStr a ++ lowerStr b).data
  rw [String.data_append, List.map_append, lowerStr, lowerStr, String.data_append]

/-- Non-occurrence of an alphabetic pattern in the case-folded form of
`a ++ format_prob p ++ b` whose folded literal parts avoid the pattern. -/
theorem not_strContains_lower_around_prob {a b pat : String} (p : ℚ)
    (hpat : ∀ c ∈ pat.data, c.isAlpha = true) (hne : pat.data ≠ [])
    (ha : ¬ pat.data <:+: (lowerStr a).data) (hb : ¬ pat.data <:+: (lowerStr b).data) :
    ¬ strContains (lowerStr (a ++ format_prob p ++ b)) pat := by
  intro hcon
  have h0 : pat.data <:+: (lowerStr (a ++ format_prob p ++ b)).data := hcon
  rw [lowerStr_append (a ++ format_prob p) b, lowerStr_append a (format_prob p),
    String.data_append, String.data_append, List.append_assoc] at h0
  have hm : ∀ c ∈ (lowerStr (format_prob p)).data, c.isAlpha = false := by
    intro c hc
    rw [lowerStr] at hc
    rcases List.mem_map.mp hc with ⟨c', hc', rfl⟩
    exact probChars_not_alpha _ (probChars_toLower c' (format_prob_subset p c' hc'))
  have hm0 : (lowerStr (format_prob p)).data ≠ [] := by
    rw [lowerStr]
    simpa using format_prob_ne_nil p
  rcases confinedInfix Char.isAlpha pat.data (lowerStr (format_prob p)).data
      (lowerStr b).data hpat hne hm hm0 (lowerStr a).data h0 with h1 | h2
  · exact ha h1
  · exact hb h2

/-- C10: in the alternative template the badge is binary, reading
"NOT DIABETIC" (green) exactly when the lowercased verdict contains "not" and
"DIABETIC" (red) otherwise, so a borderline verdict gets the "DIABETIC" badge
and the consult-physician recommendation. -/
theorem C10_badge_binary (s : String) (p : ℚ) :
    (TempTemplate.badgeText s = "NOT DIABETIC" ↔ strContains (lowerStr s) "not")
    ∧ (TempTemplate.badgeColorHex s = "#17A34A" ↔ strContains (lowerStr s) "not")
    ∧ (2/5 < p → p < 3/5 →
        TempTemplate.badgeText (predictionResult p) = "DIABETIC"
        ∧ TempTemplate.badgeColorHex (predictionResult p) = "#D7263D"
        ∧ TempTemplate.interpText (predictionResult p)
            = "Recommendation: Consult your physician for confirmatory tests and management plan.") := by
  have hgap : ∀ q : ℚ, 2/5 < q → q < 3/5 →
      TempTemplate.notDiabeticFlag (predictionResult q) = false := by
    intro q h1 h2
    rw [TempTemplate.notDiabeticFlag, predictionResult_mid h1 h2, decide_eq_false_iff_not]
    exact not_strContains_lower_around_prob q (by decide) (by decide) (by decide) (by decide)
  refine ⟨?_, ?_, fun h1 h2 => ?_⟩
  · by_cases h : strContains (lowerStr s) "not"
    · simp [TempTemplate.badgeText, TempTemplate.notDiabeticFlag, h]
    · simp only [TempTemplate.badgeText, TempTemplate.notDiabeticFlag, decide_eq_true_eq]
      rw [if_neg h]
      exact ⟨fun hc => absurd hc (by decide), fun hc => absurd hc h⟩
  · by_cases h : strContains (lowerStr s) "not"
    · simp [TempTemplate.badgeColorHex, TempTemplate.notDiabeticFlag, h]
    · simp only [TempTemplate.badgeColorHex, TempTemplate.notDiabeticFlag, decide_eq_true_eq]
      rw [if_neg h]
      exact ⟨fun hc => absurd hc (by decide), fun hc => absurd hc h⟩
  · rw [TempTemplate.badgeText, TempTemplate.badgeColorHex, TempTemplate.interpText,
      hgap p h1 h2]
    exact ⟨rfl, rfl, rfl⟩

/-- Witness for C10 on a concrete non-diabetic verdict string and the
borderline probability 0.5. -/
theorem C10_badge_binary_witness :
    TempTemplate.badgeText "The person is NOT Diabetic" = "NOT DIABETIC"
      ∧ TempTemplate.badgeText (predictionResult (1/2)) = "DIABETIC"
      ∧ TempTemplate.interpText (predictionResult (1/2))
          = "Recommendation: Consult your physician for confirmatory tests and management plan." :=
  ⟨(C10_badge_binary "The person is NOT Diabetic" 0).1.mpr (by decide),
   ((C10_badge_binary "" (1/2)).2.2 (by norm_num) (by norm_num)).1,
   ((C10_badge_binary "" (1/2)).2.2 (by norm_num) (by norm_num)).2.2⟩

/-- Characterisation of the verdict band by the literal thresholds 0.6 and
0.4 alone. -/
theorem predBand_iff (p : ℚ) :
    (predBand p = Band.diabetic ↔ 3/5 ≤ p)
    ∧ (predBand p = Band.notDiabetic ↔ p ≤ 2/5)
    ∧ (predBand p = Band.borderline ↔ 2/5 < p ∧ p < 3/5) := by
  by_cases h1 : (3 : ℚ)/5 ≤ p
  · have hb : predBand p = Band.diabetic := by
      rw [predBand, if_pos (show p ≥ 3/5 from h1)]
    rw [hb]
    refine ⟨⟨fun _ => h1, fun _ => rfl⟩,
      ⟨fun h => absurd h (by decide), fun h => False.elim (by linarith)⟩,
      ⟨fun h => absurd h (by decide), fun h => False.elim (by linarith [h.2])⟩⟩
  · by_cases h2 : p ≤ 2/5
    · have hb : predBand p = Band.notDiabetic := by
        rw [predBand, if_neg (show ¬ p ≥ 3/5 from h1), if_pos h2]
      rw [hb]
      refine ⟨⟨fun h => absurd h (by decide), fun h => False.elim (h1 h)⟩,
        ⟨fun _ => h2, fun _ => rfl⟩,
        ⟨fun h => absurd h (by decide), fun h => False.elim (by linarith [h.1])⟩⟩
    · have hb : predBand p = Band.borderline := by
        rw [predBand, if_neg (show ¬ p ≥ 3/5 from h1), if_neg h2]
      rw [hb]
      refine ⟨⟨fun h => absurd h (by decide), fun h => False.elim (h1 h)⟩,
        ⟨fun h => absurd h (by decide), fun h => False.elim (h2 h)⟩,
        ⟨fun _ => ⟨not_le.mp h2, not_le.mp h1⟩, fun _ => rfl⟩⟩

/-- C9: every report story carries the literal line "Decision Threshold: 50%"
derived from `DECISION_THRESHOLD = 0.5`, yet the verdict band is characterised
solely by the thresholds 0.6 and 0.4, and the advertised threshold equals
neither of them. -/
theorem C9_threshold_line (fsEx : String → Bool) (now predResult : String)
    (docInfo : DoctorInfo) (logo patientPhoto : Option String) (scanned : List String) :
    Elem.para "Decision Threshold: 50%" "SmallGray"
        ∈ storyOf fsEx now predResult docInfo logo patientPhoto scanned
    ∧ DECISION_THRESHOLD ≠ 3/5 ∧ DECISION_THRESHOLD ≠ 2/5
    ∧ ∀ p : ℚ,
        (predBand p = Band.diabetic ↔ 3/5 ≤ p)
        ∧ (predBand p = Band.notDiabetic ↔ p ≤ 2/5)
        ∧ (predBand p = Band.borderline ↔ 2/5 < p ∧ p < 3/5) := by
  have h1 : DECISION_THRESHOLD * 100 = (50 : ℚ) := by norm_num [DECISION_THRESHOLD]
  have h2 : pyInt (DECISION_THRESHOLD * 100) = 50 := by
    rw [pyInt, h1, if_neg (by norm_num)]
    norm_num
  have h3 : "Decision Threshold: " ++ intStr (pyInt (DECISION_THRESHOLD * 100)) ++ "%"
      = "Decision Threshold: 50%" := by
    rw [h2]
    decide
  refine ⟨?_, by norm_num [DECISION_THRESHOLD], by norm_num [DECISION_THRESHOLD], predBand_iff⟩
  rw [storyOf]
  refine List.mem_append_left _ (List.mem_append_left _ ?_)
  rw [← h3, storyMain.eq_def]
  refine List.mem_append_right _ ?_
  simp

/-- Test for a console print event. -/
def Event.isPrintedEv : Event → Bool
  | Event.printed _ => true
  | _ => false

/-- Events of a terminating webcam loop are console prints. -/
theorem captureLoop_events_printed (outPath : String) :
    ∀ (frames : List Frame) (evs : List Event) (saved : Option String),
      captureLoop outPath frames = some (evs, saved) →
      ∀ ev ∈ evs, ev.isPrintedEv = true
  | [], _, _, h => by simp [captureLoop] at h
  | f :: fs, evs, saved, h => by
    rw [captureLoop] at h
    by_cases hr : f.ret = false
    · rw [if_pos hr] at h
      injection h with h'
      injection h' with h1 h2
      subst h1
      intro ev hev
      rcases List.mem_singleton.mp hev with rfl
      rfl
    · rw [if_neg hr] at h
      match hk : f.key with
      | Key.esc =>
        rw [hk] at h
        injection h with h'
        injection h' with h1 h2
        subst h1
        intro ev hev
        rcases List.mem_singleton.mp hev with rfl
        rfl
      | Key.space =>
        rw [hk] at h
        injection h with h'
        injection h' with h1 h2
        subst h1
        intro ev hev
        rcases List.mem_singleton.mp hev with rfl
        rfl
      | Key.other =>
        rw [hk] at h
        exact captureLoop_events_printed outPath fs evs saved h

/-- Events of the webcam-capture routine are console prints. -/
theorem capture_events_printed (hasCv2 opened : Bool) (frames : List Frame) (outPath : String) :
    ∀ ev ∈ (capture_photo_via_webcam hasCv2 opened frames outPath).events,
      ev.isPrintedEv = true := by
  intro ev hev
  rw [capture_photo_via_webcam] at hev
  by_cases h1 : hasCv2 = false
  · rw [if_pos h1] at hev
    rcases List.mem_singleton.mp hev with rfl
    rfl
  · rw [if_neg h1] at hev
    by_cases h2 : opened = false
    · rw [if_pos h2] at hev
      rcases List.mem_singleton.mp hev with rfl
      rfl
    · rw [if_neg h2] at hev
      match hcl : captureLoop outPath frames with
      | none =>
        rw [hcl] at hev
        rcases List.mem_singleton.mp hev with rfl
        rfl
      | some (evs, saved) =>
        rw [hcl] at hev
        rcases List.mem_cons.mp hev with rfl | hev'
        · rfl
        · exact captureLoop_events_printed outPath frames evs saved hcl ev hev'

/-- Every event of the photo phase is a console print or one of its two fixed
prompts. -/
theorem photoPhase_events_cases (env : Env) :
    ∀ ev ∈ (photoPhase env).events,
      ev.isPrintedEv = true
      ∨ ev = Event.prompt "Capture patient photo with webcam? (y/n): "
      ∨ ev = Event.prompt "Enter path to patient photo (leave blank to skip): " := by
  intro ev hev
  rw [photoPhase] at hev
  by_cases hy : lowerStr (stripStr env.useCamIn) = "y"
  · rw [if_pos hy] at hev
    set cam := capture_photo_via_webcam env.hasCv2 env.camOpened env.frames
      ("reports/" ++ stripStr env.idIn ++ "_photo.jpg") with hcam
    by_cases hh : cam.hung
    · rw [if_pos hh] at hev
      simp only [List.mem_append, List.mem_singleton] at hev
      rcases hev with rfl | hev'
      · exact Or.inr (Or.inl rfl)
      · exact Or.inl (capture_events_printed _ _ _ _ ev hev')
    · rw [if_neg hh] at hev
      match hres : cam.result with
      | some p =>
        rw [hres] at hev
        simp only [List.mem_append, List.mem_singleton] at hev
        rcases hev with rfl | hev'
        · exact Or.inr (Or.inl rfl)
        · exact Or.inl (capture_events_printed _ _ _ _ ev hev')
      | none =>
        rw [hres] at hev
        simp only [List.mem_append, List.mem_singleton] at hev
        rcases hev with (rfl | hev') | rfl
        · exact Or.inr (Or.inl rfl)
        · exact Or.inl (capture_events_printed _ _ _ _ ev hev')
        · exact Or.inr (Or.inr rfl)
  · rw [if_neg hy] at hev
    simp only [List.mem_append, List.mem_singleton] at hev
    rcases hev with rfl | rfl
    · exact Or.inr (Or.inl rfl)
    · exact Or.inr (Or.inr rfl)

/-- No PDF-write event occurs during the photo phase. -/
theorem wrotePdf_not_in_photoPhase (env : Env) (pth : String) :
    Event.wrotePdf pth ∉ (photoPhase env).events := by
  intro h
  rcases photoPhase_events_cases env _ h with hp | heq | heq
  · simp [Event.isPrintedEv] at hp
  · cases heq
  · cases heq

/-- The scanned-reports prompt is not issued during the photo phase. -/
theorem scannedPrompt_not_in_photoPhase (env : Env) :
    Event.prompt scannedPromptMsg ∉ (photoPhase env).events := by
  intro h
  rcases photoPhase_events_cases env _ h with hp | heq | heq
  · simp [Event.isPrintedEv] at hp
  · rw [Event.prompt.injEq] at heq
    exact absurd heq (by decide)
  · rw [Event.prompt.injEq] at heq
    exact absurd heq (by decide)

/-- Prompts of the metrics phase form an initial segment of the seven metric
prompts: each prompt is issued at most once and in order — there is no
re-prompt loop. -/
theorem metricsPhase_events_initial (env : Env) :
    (metricsPhase env).1 <+: metricPrompts := by
  rw [metricsPhase]
  cases parseInt (stripStr env.pregIn) with
  | none => exact List.take_prefix 1 metricPrompts
  | some a1 =>
  cases parseInt (stripStr env.glucIn) with
  | none => exact List.take_prefix 2 metricPrompts
  | some a2 =>
  cases parseInt (stripStr env.bpIn) with
  | none => exact List.take_prefix 3 metricPrompts
  | some a3 =>
  cases parseInt (stripStr env.skinIn) with
  | none => exact List.take_prefix 4 metricPrompts
  | some a4 =>
  cases parseInt (stripStr env.insulinIn) with
  | none => exact List.take_prefix 5 metricPrompts
  | some a5 =>
  cases parseFloat (stripStr env.bmiIn) with
  | none => exact List.take_prefix 6 metricPrompts
  | some a6 =>
  cases parseFloat (stripStr env.dpfIn) with
  | none => exact List.take_prefix 7 metricPrompts
  | some a7 =>
  cases parseInt (stripStr env.ageIn) with
  | none => exact List.take_prefix 7 metricPrompts
  | some a8 => exact List.prefix_refl metricPrompts

/-- When every numeric field parses, all seven metric prompts are issued. -/
theorem metricsPhase_events_of_some (env : Env) (m : Metrics)
    (h : (metricsPhase env).2 = some m) :
    (metricsPhase env).1 = metricPrompts := by
  revert h
  rw [metricsPhase]
  cases parseInt (stripStr env.pregIn) with
  | none => exact fun h => Option.noConfusion h
  | some a1 =>
  cases parseInt (stripStr env.glucIn) with
  | none => exact fun h => Option.noConfusion h
  | some a2 =>
  cases parseInt (stripStr env.bpIn) with
  | none => exact fun h => Option.noConfusion h
  | some a3 =>
  cases parseInt (stripStr env.skinIn) with
  | none => exact fun h => Option.noConfusion h
  | some a4 =>
  cases parseInt (stripStr env.insulinIn) with
  | none => exact fun h => Option.noConfusion h
  | some a5 =>
  cases parseFloat (stripStr env.bmiIn) with
  | none => exact fun h => Option.noConfusion h
  | some a6 =>
  cases parseFloat (stripStr env.dpfIn) with
  | none => exact fun h => Option.noConfusion h
  | some a7 =>
  cases parseInt (stripStr env.ageIn) with
  | none => exact fun h => Option.noConfusion h
  | some a8 => exact fun _ => rfl

/-- Run shape when a numeric field fails to parse: the run crashes right
after the metric prompts issued so far. -/
theorem mainRun_crashed_of_parse (env : Env)
    (hph : (photoPhase env).hung = false) (hmp : (metricsPhase env).2 = none) :
    mainRun env = (idPrompts ++ (photoPhase env).events ++ (metricsPhase env).1,
      Outcome.crashed) := by
  simp [mainRun, hph, hmp]

/-- Run shape when the model artifact is missing: the run exits with failure
right after the metrics phase. -/
theorem mainRun_missing_model (env : Env) (m : Metrics)
    (hph : (photoPhase env).hung = false) (hmp : (metricsPhase env).2 = some m)
    (hmodel : env.fs "diabetes_model.pkl" = false) :
    mainRun env = (idPrompts ++ (photoPhase env).events ++ (metricsPhase env).1
        ++ [Event.printed "❌ Required model not found: diabetes_model.pkl"],
      Outcome.exitedFailure 1) := by
  simp [mainRun, hph, hmp, safe_load, predictorModelFile, hmodel]

/-- Run shape when the model artifact exists but the scaler is missing. -/
theorem mainRun_missing_scaler (env : Env) (m : Metrics)
    (hph : (photoPhase env).hung = false) (hmp : (metricsPhase env).2 = some m)
    (hmodel : env.fs "diabetes_model.pkl" = true)
    (hscaler : env.fs "scaler.pkl" = false) :
    mainRun env = (idPrompts ++ (photoPhase env).events ++ (metricsPhase env).1
        ++ [Event.printed "❌ Required scaler not found: scaler.pkl"],
      Outcome.exitedFailure 1) := by
  simp [mainRun, hph, hmp, safe_load, predictorModelFile, predictorScalerFile, hmodel, hscaler]

/-- Run shape of a successful report run. -/
theorem mainRun_success (env : Env) (m : Metrics) (sc : List String)
    (hph : (photoPhase env).hung = false) (hmp : (metricsPhase env).2 = some m)
    (hmodel : env.fs "diabetes_model.pkl" = true)
    (hscaler : env.fs "scaler.pkl" = true)
    (hsl : (scannedLoop env.fs env.scannedIn).2 = some sc) :
    mainRun env = (idPrompts ++ (photoPhase env).events ++ (metricsPhase env).1
        ++ (scannedLoop env.fs env.scannedIn).1
        ++ [Event.wrotePdf ("reports/diabetes_report_" ++ stripStr env.idIn ++ ".pdf"),
            Event.printed ("✅ Report generated and saved at "
              ++ ("reports/diabetes_report_" ++ stripStr env.idIn ++ ".pdf"))],
      Outcome.reported (env.model (env.scaler (featuresOf m)))
        (predictionResult (env.model (env.scaler (featuresOf m))))
        (storyOf env.fs env.now (predictionResult (env.model (env.scaler (featuresOf m))))
          doctor_info logo_path (photoPhase env).photo sc)) := by
  simp [mainRun, hph, hmp, safe_load, predictorModelFile, predictorScalerFile,
    hmodel, hscaler, hsl]

/-- Baseline closed environment used to exercise the run model on concrete
inputs: camera declined, valid numeric answers, every path present, scaler the
identity and classifier constantly zero. -/
def envBase : Env :=
  { idIn := "p1", nameIn := "n", ageIn := "45", genderIn := "M", contactIn := "c"
  , useCamIn := "n", hasCv2 := false, camOpened := false, frames := []
  , manualPhotoIn := "", pregIn := "2", glucIn := "150", bpIn := "80"
  , skinIn := "30", insulinIn := "100", bmiIn := "28.5", dpfIn := "0.5"
  , scannedIn := [""], fs := fun _ => true
  , scaler := fun v => v, model := fun _ => 0, now := "2026-10-12" }

/-- C6: whenever the webcam-capture routine terminates, an acquired camera
device has been released: no exit path of the capture routine leaves the
device acquired. -/
theorem C6_camera_released (hasCv2 opened : Bool) (frames : List Frame) (outPath : String)
    (hterm : (capture_photo_via_webcam hasCv2 opened frames outPath).hung = false)
    (hacq : (capture_photo_via_webcam hasCv2 opened frames outPath).acquired = true) :
    (capture_photo_via_webcam hasCv2 opened frames outPath).released = true := by
  rw [capture_photo_via_webcam] at hterm hacq ⊢
  by_cases h1 : hasCv2 = false
  · rw [if_pos h1] at hacq
    exact Bool.noConfusion hacq
  · rw [if_neg h1] at hterm hacq ⊢
    by_cases h2 : opened = false
    · rw [if_pos h2] at hacq
      exact Bool.noConfusion hacq
    · rw [if_neg h2] at hterm hacq ⊢
      match hcl : captureLoop outPath frames with
      | none =>
        rw [hcl] at hterm
        exact Bool.noConfusion hterm
      | some (evs, saved) => rfl

/-- Witness for C6: a terminating capture session that skips via ESC. -/
theorem C6_camera_released_witness :
    (capture_photo_via_webcam true true [{ ret := true, key := Key.esc }]
      "reports/p1_photo.jpg").released = true :=
  C6_camera_released true true [{ ret := true, key := Key.esc }]
    "reports/p1_photo.jpg" rfl rfl

/-- C7: a malformed numeric answer crashes the run with an uncaught parse
failure; the metric prompts issued form an initial segment of the seven fixed
prompts, so no prompt is ever repeated, and a failure at the first prompt
stops after exactly that prompt.  A malformed age field likewise yields no
parsed metrics. -/
theorem C7_parse_failure (env : Env) (hph : (photoPhase env).hung = false) :
    ((metricsPhase env).2 = none → (mainRun env).2 = Outcome.crashed)
    ∧ (metricsPhase env).1 <+: metricPrompts
    ∧ (parseInt (stripStr env.pregIn) = none →
        (metricsPhase env).1 = [Event.prompt "Pregnancies: "]
        ∧ (metricsPhase env).2 = none)
    ∧ (parseInt (stripStr env.ageIn) = none → (metricsPhase env).2 = none) := by
  refine ⟨fun hmp => ?_, metricsPhase_events_initial env, fun hp => ⟨?_, ?_⟩, fun ha => ?_⟩
  · rw [mainRun_crashed_of_parse env hph hmp]
  · rw [metricsPhase, hp]
  · rw [metricsPhase, hp]
  · rw [metricsPhase]
    cases parseInt (stripStr env.pregIn) with
    | none => rfl
    | some a1 =>
    cases parseInt (stripStr env.glucIn) with
    | none => rfl
    | some a2 =>
    cases parseInt (stripStr env.bpIn) with
    | none => rfl
    | some a3 =>
    cases parseInt (stripStr env.skinIn) with
    | none => rfl
    | some a4 =>
    cases parseInt (stripStr env.insulinIn) with
    | none => rfl
    | some a5 =>
    cases parseFloat (stripStr env.bmiIn) with
    | none => rfl
    | some a6 =>
    cases parseFloat (stripStr env.dpfIn) with
    | none => rfl
    | some a7 => rw [ha]

/-- Witness for C7: the literal answer "abc" at the pregnancies prompt crashes
the run after exactly one metric prompt. -/
theorem C7_parse_failure_witness :
    (mainRun { envBase with pregIn := "abc" }).2 = Outcome.crashed
    ∧ (metricsPhase { envBase with pregIn := "abc" }).1 = [Event.prompt "Pregnancies: "] :=
  ⟨(C7_parse_failure { envBase with pregIn := "abc" } rfl).1 rfl,
   ((C7_parse_failure { envBase with pregIn := "abc" } rfl).2.2.1 rfl).1⟩

/-- C8: the predictor builds its feature row in the fixed eight-column order,
which is exactly the trainer's column order after dropping the label column,
and both scripts use the same persisted model and scaler file names. -/
theorem C8_feature_order :
    trainerFeatureColumns = predictorFeatureOrder
    ∧ trainerModelFile = predictorModelFile
    ∧ trainerScalerFile = predictorScalerFile
    ∧ ∀ m : Metrics, featuresOf m = predictorFeatureOrder.map (featVal m) :=
  ⟨by decide, rfl, rfl, fun _ => rfl⟩

/-- Environment in which no file exists, in particular neither persisted
artifact. -/
def envNoModel : Env := { envBase with fs := fun _ => false }

/-- C1 counterexample: with the model artifact missing the run does exit with
failure, but the identity and metric prompts have already been issued, so the
exit does not happen before any interactive prompt. -/
theorem C1_counterexample :
    envNoModel.fs "diabetes_model.pkl" = false
    ∧ (mainRun envNoModel).2 = Outcome.exitedFailure 1
    ∧ Event.prompt "Enter Patient ID: " ∈ (mainRun envNoModel).1
    ∧ Event.prompt "Pregnancies: " ∈ (mainRun envNoModel).1 := by
  refine ⟨rfl, rfl, ?_, ?_⟩ <;> decide

/-- C1 as amended: when a persisted artifact is missing and the run reaches
the artifact check, it prints the error and exits with failure code 1; no PDF
is written and the scanned-reports prompt loop is never reached — but the
identity, photo and metric prompts have already been issued. -/
theorem C1_missing_artifact_amended (env : Env) (m : Metrics)
    (hph : (photoPhase env).hung = false) (hmp : (metricsPhase env).2 = some m)
    (hmiss : env.fs "diabetes_model.pkl" = false
      ∨ (env.fs "diabetes_model.pkl" = true ∧ env.fs "scaler.pkl" = false)) :
    (mainRun env).2 = Outcome.exitedFailure 1
    ∧ (∀ pth, Event.wrotePdf pth ∉ (mainRun env).1)
    ∧ Event.prompt scannedPromptMsg ∉ (mainRun env).1
    ∧ Event.prompt "Enter Patient ID: " ∈ (mainRun env).1
    ∧ Event.prompt "Pregnancies: " ∈ (mainRun env).1 := by
  have hme := metricsPhase_events_of_some env m hmp
  rcases hmiss with hmodel | ⟨hmodel, hscaler⟩
  · rw [mainRun_missing_model env m hph hmp hmodel]
    refine ⟨rfl, fun pth h => ?_, fun h => ?_, ?_, ?_⟩
    · rcases List.mem_append.mp h with h | h
      rcases List.mem_append.mp h with h | h
      rcases List.mem_append.mp h with h | h
      · simp [idPrompts] at h
      · exact wrotePdf_not_in_photoPhase env pth h
      · rw [hme] at h
        simp [metricPrompts] at h
      · simp at h
    · rcases List.mem_append.mp h with h | h
      rcases List.mem_append.mp h with h | h
      rcases List.mem_append.mp h with h | h
      · exact absurd h (by decide)
      · exact scannedPrompt_not_in_photoPhase env h
      · rw [hme] at h
        exact absurd h (by decide)
      · exact absurd h (by decide)
    · exact List.mem_append_left _ (List.mem_append_left _ (List.mem_append_left _ (by decide)))
    · refine List.mem_append_left _ (List.mem_append_right _ ?_)
      rw [hme]
      decide
  · rw [mainRun_missing_scaler env m hph hmp hmodel hscaler]
    refine ⟨rfl, fun pth h => ?_, fun h => ?_, ?_, ?_⟩
    · rcases List.mem_append.mp h with h | h
      rcases List.mem_append.mp h with h | h
      rcases List.mem_append.mp h with h | h
      · simp [idPrompts] at h
      · exact wrotePdf_not_in_photoPhase env pth h
      · rw [hme] at h
        simp [metricPrompts] at h
      · simp at h
    · rcases List.mem_append.mp h with h | h
      rcases List.mem_append.mp h with h | h
      rcases List.mem_append.mp h with h | h
      · exact absurd h (by decide)
      · exact scannedPrompt_not_in_photoPhase env h
      · rw [hme] at h
        exact absurd h (by decide)
      · exact absurd h (by decide)
    · exact List.mem_append_left _ (List.mem_append_left _ (List.mem_append_left _ (by decide)))
    · refine List.mem_append_left _ (List.mem_append_right _ ?_)
      rw [hme]
      decide

/-- Witness for the amended C1 on the concrete missing-artifact environment. -/
theorem C1_missing_artifact_amended_witness :
    (mainRun envNoModel).2 = Outcome.exitedFailure 1
    ∧ Event.prompt scannedPromptMsg ∉ (mainRun envNoModel).1 :=
  ⟨(C1_missing_artifact_amended envNoModel _ rfl rfl (Or.inl rfl)).1,
   (C1_missing_artifact_amended envNoModel _ rfl rfl (Or.inl rfl)).2.2.1⟩

/-- Test for an image element. -/
def Elem.isImageEl : Elem → Bool
  | Elem.image _ => true
  | _ => false

/-- The story part before the scanned-reports block never contains a page
break. -/
theorem pageBreak_not_in_storyMain (fsEx : String → Bool) (now pr : String)
    (docInfo : DoctorInfo) (logo patientPhoto : Option String) :
    Elem.pageBreak ∉ storyMain fsEx now pr docInfo logo patientPhoto := by
  intro h
  rw [storyMain.eq_def] at h
  rcases List.mem_append.mp h with hh | h4
  rcases List.mem_append.mp hh with hh2 | h3
  rcases List.mem_append.mp hh2 with h1 | h2
  · cases logo with
    | none => simp at h1
    | some lg => cases hf : fsEx lg <;> simp [hf] at h1
  · simp at h2
  · cases patientPhoto with
    | none => simp at h3
    | some ph => cases hf : fsEx ph <;> simp [hf] at h3
  · simp at h4

/-- C3: a run that collected no scanned-report paths produces a story with no
page break and no appended image section; a run that collected two existing
paths appends, after one page break and a heading, exactly two image elements,
one per path, and that page break is the only one in the story. -/
theorem C3_scanned_append (fsEx : String → Bool) (now pr : String)
    (docInfo : DoctorInfo) (logo patientPhoto : Option String) (r1 r2 : String)
    (h1 : fsEx r1 = true) (h2 : fsEx r2 = true) :
    (scannedSection fsEx [] = []
      ∧ Elem.pageBreak ∉ storyOf fsEx now pr docInfo logo patientPhoto [])
    ∧ (storyOf fsEx now pr docInfo logo patientPhoto [r1, r2]
        = storyMain fsEx now pr docInfo logo patientPhoto
          ++ ([Elem.pageBreak, Elem.para "<b>Attached Scanned Reports</b>" "Heading2",
               Elem.image r1, Elem.spacer 8, Elem.image r2, Elem.spacer 8] ++ storyFoot)
      ∧ (scannedSection fsEx [r1, r2]).filter Elem.isImageEl
          = [Elem.image r1, Elem.image r2]
      ∧ Elem.pageBreak ∉ storyMain fsEx now pr docInfo logo patientPhoto
      ∧ Elem.pageBreak ∉ storyFoot) := by
  refine ⟨⟨rfl, ?_⟩, ?_, ?_, pageBreak_not_in_storyMain fsEx now pr docInfo logo patientPhoto, by decide⟩
  · intro h
    rw [storyOf] at h
    rcases List.mem_append.mp h with hh | hfoot
    rcases List.mem_append.mp hh with hmain | hscan
    · exact pageBreak_not_in_storyMain fsEx now pr docInfo logo patientPhoto hmain
    · have hempty : scannedSection fsEx [] = [] := rfl
      rw [hempty] at hscan
      simp at hscan
    · exact absurd hfoot (by decide)
  · rw [storyOf]
    have hsec : scannedSection fsEx [r1, r2]
        = [Elem.pageBreak, Elem.para "<b>Attached Scanned Reports</b>" "Heading2",
           Elem.image r1, Elem.spacer 8, Elem.image r2, Elem.spacer 8] := by
      rw [scannedSection]
      rw [if_neg (by simp)]
      rw [show [r1, r2].map (fun r => if fsEx r then [Elem.image r, Elem.spacer 8] else [])
          = [[Elem.image r1, Elem.spacer 8], [Elem.image r2, Elem.spacer 8]] by rw [List.map_cons, List.map_cons, List.map_nil, h1, h2]; simp]
      rfl
    rw [hsec, List.append_assoc]
  · rw [show scannedSection fsEx [r1, r2]
        = [Elem.pageBreak, Elem.para "<b>Attached Scanned Reports</b>" "Heading2",
           Elem.image r1, Elem.spacer 8, Elem.image r2, Elem.spacer 8] by
      rw [scannedSection, if_neg (by simp),
        show [r1, r2].map (fun r => if fsEx r then [Elem.image r, Elem.spacer 8] else [])
          = [[Elem.image r1, Elem.spacer 8], [Elem.image r2, Elem.spacer 8]] by rw [List.map_cons, List.map_cons, List.map_nil, h1, h2]; simp]
      rfl]
    simp [Elem.isImageEl]

/-- Witness for C3 with a trivial filesystem and two concrete scan paths. -/
theorem C3_scanned_append_witness :
    Elem.pageBreak ∉ storyOf (fun _ => true) "t" "v" doctor_info none none []
    ∧ (scannedSection (fun _ => true) ["a.png", "b.png"]).filter Elem.isImageEl
        = [Elem.image "a.png", Elem.image "b.png"] :=
  ⟨((C3_scanned_append (fun _ => true) "t" "v" doctor_info none none "a.png" "b.png" rfl rfl).1).2,
   ((C3_scanned_append (fun _ => true) "t" "v" doctor_info none none "a.png" "b.png" rfl rfl).2).2.1⟩

/-- The scanned-reports block never contains the patient-photo block. -/
theorem photoBlock_not_in_scannedSection (fsEx : String → Bool) (sc : List String) (q : String) :
    Elem.detailsWithPhoto q ∉ scannedSection fsEx sc := by
  intro h
  rw [scannedSection] at h
  by_cases he : sc.isEmpty = true
  · rw [if_pos he] at h
    simp at h
  · rw [if_neg he] at h
    rcases List.mem_cons.mp h with h0 | h
    · exact Elem.noConfusion h0
    rcases List.mem_cons.mp h with h0 | h
    · exact Elem.noConfusion h0
    rcases List.mem_flatten.mp h with ⟨l, hl, hml⟩
    rcases List.mem_map.mp hl with ⟨r, -, rfl⟩
    cases hf : fsEx r <;> simp [hf] at hml

/-- A patient-photo block appears in the story only for an existing photo
path that was actually chosen. -/
theorem photoBlock_in_storyOf (fsEx : String → Bool) (now pr : String)
    (docInfo : DoctorInfo) (logo patientPhoto : Option String) (sc : List String) (q : String)
    (h : Elem.detailsWithPhoto q ∈ storyOf fsEx now pr docInfo logo patientPhoto sc) :
    patientPhoto = some q ∧ fsEx q = true := by
  rw [storyOf] at h
  rcases List.mem_append.mp h with hh | hfoot
  rcases List.mem_append.mp hh with hmain | hscan
  · rw [storyMain.eq_def] at hmain
    rcases List.mem_append.mp hmain with hh | h4
    rcases List.mem_append.mp hh with hh2 | h3
    rcases List.mem_append.mp hh2 with h1 | h2
    · cases logo with
      | none => simp at h1
      | some lg => cases hf : fsEx lg <;> simp [hf] at h1
    · simp at h2
    · cases patientPhoto with
      | none => simp at h3
      | some ph =>
        cases hf : fsEx ph with
        | false => simp [hf] at h3
        | true =>
          simp [hf] at h3
          rcases h3 with rfl
          exact ⟨rfl, hf⟩
    · simp at h4
  · exact absurd hscan (photoBlock_not_in_scannedSection fsEx sc q)
  · simp [storyFoot] at hfoot

/-- When the user asks for webcam capture but OpenCV is unavailable, the
fallback warning is printed during the photo phase. -/
theorem photoPhase_cv2_warning (env : Env)
    (hy : lowerStr (stripStr env.useCamIn) = "y") (hc : env.hasCv2 = false) :
    Event.printed "❌ OpenCV (cv2) not available. Falling back to manual photo path."
      ∈ (photoPhase env).events := by
  rw [photoPhase, if_pos hy]
  simp [capture_photo_via_webcam, hc]

/-- A nonblank scanned path that does not exist triggers the warning print and
is not collected. -/
theorem scannedLoop_warning (fs : String → Bool) (r : String) (rs : List String)
    (h1 : ¬ stripStr r = "") (h2 : fs (stripStr r) = false) :
    Event.printed "⚠️ File not found, skipped." ∈ (scannedLoop fs (r :: rs)).1
    ∧ (scannedLoop fs (r :: rs)).2 = (scannedLoop fs rs).2 := by
  rw [scannedLoop]
  rw [if_neg h1, if_neg (by rw [h2]; exact Bool.false_ne_true)]
  constructor
  · simp
  · rfl

/-- Environment whose manual photo path does not exist while everything else
does. -/
def envNoPhoto : Env :=
  { envBase with manualPhotoIn := "nophoto.jpg", fs := fun p => p != "nophoto.jpg" }

/-- C4 counterexample: with a nonexistent manual patient-photo path the run
still produces the report, but no warning about the photo is printed — the
only print of the whole run is the final report-saved message, contradicting
the claim that a warning is printed for this case. -/
theorem C4_counterexample :
    envNoPhoto.fs "nophoto.jpg" = false
    ∧ (photoPhase envNoPhoto).photo = some "nophoto.jpg"
    ∧ (∃ p v st, (mainRun envNoPhoto).2 = Outcome.reported p v st)
    ∧ (mainRun envNoPhoto).1.filter Event.isPrintedEv
        = [Event.printed "✅ Report generated and saved at reports/diabetes_report_p1.pdf"] := by
  refine ⟨rfl, rfl, ⟨_, _, _, rfl⟩, ?_⟩
  decide

/-- C4 as amended: optional-content failures are never fatal.  With both
artifacts present and well-formed numeric input the run always produces a
report; an unavailable camera and a missing scanned path each print their
warning; a missing manual photo path is silently omitted from the story
(no photo block and no warning). -/
theorem C4_optional_never_fatal (env : Env) (m : Metrics) (sc : List String)
    (hph : (photoPhase env).hung = false) (hmp : (metricsPhase env).2 = some m)
    (hmodel : env.fs "diabetes_model.pkl" = true)
    (hscaler : env.fs "scaler.pkl" = true)
    (hsl : (scannedLoop env.fs env.scannedIn).2 = some sc) :
    (∃ p v st, (mainRun env).2 = Outcome.reported p v st)
    ∧ (lowerStr (stripStr env.useCamIn) = "y" → env.hasCv2 = false →
        Event.printed "❌ OpenCV (cv2) not available. Falling back to manual photo path."
          ∈ (mainRun env).1)
    ∧ (∀ r rs, env.scannedIn = r :: rs → ¬ stripStr r = "" → env.fs (stripStr r) = false →
        Event.printed "⚠️ File not found, skipped." ∈ (mainRun env).1)
    ∧ (∀ q p v st, (mainRun env).2 = Outcome.reported p v st →
        Elem.detailsWithPhoto q ∈ st → (photoPhase env).photo = some q ∧ env.fs q = true) := by
  have hrun := mainRun_success env m sc hph hmp hmodel hscaler hsl
  refine ⟨?_, fun hy hc => ?_, fun r rs hin hr1 hr2 => ?_, fun q p v st hout hmem => ?_⟩
  · exact ⟨_, _, _, by rw [hrun]⟩
  · rw [hrun]
    refine List.mem_append_left _ (List.mem_append_left _ (List.mem_append_left _ (List.mem_append_right _ ?_)))
    exact photoPhase_cv2_warning env hy hc
  · rw [hrun]
    refine List.mem_append_left _ (List.mem_append_right _ ?_)
    rw [hin]
    exact (scannedLoop_warning env.fs r rs hr1 hr2).1
  · rw [hrun] at hout
    have hst : st = storyOf env.fs env.now
        (predictionResult (env.model (env.scaler (featuresOf m))))
        doctor_info logo_path (photoPhase env).photo sc := by
      have := hout
      injection this with h1 h2 h3
      exact h3.symm
    rw [hst] at hmem
    exact photoBlock_in_storyOf _ _ _ _ _ _ _ _ hmem

/-- Environment whose first scanned-report answer names a missing file. -/
def envScanGone : Env :=
  { envBase with scannedIn := ["gone.png", ""], fs := fun p => p != "gone.png" }

/-- Witness for the amended C4: a missing scanned path warns yet the report is
still produced. -/
theorem C4_optional_never_fatal_witness :
    (∃ p v st, (mainRun envScanGone).2 = Outcome.reported p v st)
    ∧ Event.printed "⚠️ File not found, skipped." ∈ (mainRun envScanGone).1 :=
  ⟨(C4_optional_never_fatal envScanGone _ [] rfl rfl rfl rfl rfl).1,
   (C4_optional_never_fatal envScanGone _ [] rfl rfl rfl rfl rfl).2.2.1
     "gone.png" [""] rfl (by decide) rfl⟩

/-- The probability of a reported outcome is exactly the classifier applied
to the scaled feature row, and the verdict is derived from it. -/
theorem mainRun_reported_inv (env : Env) (m : Metrics) (p : ℚ) (v : String)
    (st : List Elem) (hmp : (metricsPhase env).2 = some m)
    (h : (mainRun env).2 = Outcome.reported p v st) :
    p = env.model (env.scaler (featuresOf m)) ∧ v = predictionResult p := by
  by_cases hph : (photoPhase env).hung = true
  · simp [mainRun, hph] at h
  · have hph' : (photoPhase env).hung = false := by
      cases hh : (photoPhase env).hung
      · rfl
      · exact absurd hh hph
    cases hmodel : env.fs "diabetes_model.pkl" with
    | false =>
      rw [mainRun_missing_model env m hph' hmp hmodel] at h
      exact absurd h (by simp)
    | true =>
      cases hscaler : env.fs "scaler.pkl" with
      | false =>
        rw [mainRun_missing_scaler env m hph' hmp hmodel hscaler] at h
        exact absurd h (by simp)
      | true =>
        match hsl : (scannedLoop env.fs env.scannedIn).2 with
        | none =>
          simp [mainRun, hph', hmp, safe_load, predictorModelFile, predictorScalerFile,
            hmodel, hscaler, hsl] at h
        | some sc =>
          rw [mainRun_success env m sc hph' hmp hmodel hscaler hsl] at h
          injection h with h1 h2 h3
          exact ⟨h1.symm, by rw [h2.symm, h1]⟩

/-- C5: two runs that parse identical eight-feature inputs and carry identical
persisted scaler and model functions report identical probabilities and
identical verdicts, whatever else differs between the two environments. -/
theorem C5_deterministic_scoring (e1 e2 : Env) (m : Metrics)
    (p1 p2 : ℚ) (v1 v2 : String) (st1 st2 : List Elem)
    (hm1 : (metricsPhase e1).2 = some m) (hm2 : (metricsPhase e2).2 = some m)
    (hsc : e1.scaler = e2.scaler) (hmod : e1.model = e2.model)
    (h1 : (mainRun e1).2 = Outcome.reported p1 v1 st1)
    (h2 : (mainRun e2).2 = Outcome.reported p2 v2 st2) :
    p1 = p2 ∧ v1 = v2 := by
  obtain ⟨hp1, hv1⟩ := mainRun_reported_inv e1 m p1 v1 st1 hm1 h1
  obtain ⟨hp2, hv2⟩ := mainRun_reported_inv e2 m p2 v2 st2 hm2 h2
  have hp : p1 = p2 := by rw [hp1, hp2, hsc, hmod]
  exact ⟨hp, by rw [hv1, hv2, hp]⟩

/-- Environment identical to the baseline in features and artifacts but with
different identity answers and optional content. -/
def envAltIdentity : Env :=
  { envBase with
      nameIn := "someone else", genderIn := "F", contactIn := "000",
      manualPhotoIn := "p.jpg", scannedIn := ["s.png", ""], now := "other time" }

/-- Witness for C5: the baseline run and a run differing in identity fields
and optional content report the same probability and verdict. -/
theorem C5_deterministic_scoring_witness :
    ∃ (m : Metrics) (p1 p2 : ℚ) (v1 v2 : String) (st1 st2 : List Elem),
      (metricsPhase envBase).2 = some m
      ∧ (metricsPhase envAltIdentity).2 = some m
      ∧ (mainRun envBase).2 = Outcome.reported p1 v1 st1
      ∧ (mainRun envAltIdentity).2 = Outcome.reported p2 v2 st2
      ∧ p1 = p2 ∧ v1 = v2 := by
  obtain ⟨hp, hv⟩ := C5_deterministic_scoring envBase envAltIdentity _ _ _ _ _ _ _
    rfl rfl rfl rfl rfl rfl
  exact ⟨_, _, _, _, _, _, _, rfl, rfl, rfl, rfl, hp, hv⟩

/-- Witness for C8 at the head conjunct. -/
theorem C8_feature_order_witness : trainerFeatureColumns = predictorFeatureOrder :=
  C8_feature_order.1

/-- Witness for C9 at a concrete story and the probability 0.5. -/
theorem C9_threshold_line_witness :
    Elem.para "Decision Threshold: 50%" "SmallGray"
        ∈ storyOf (fun _ => true) "t" "v" doctor_info none none []
    ∧ (predBand (1/2) = Band.borderline ↔ 2/5 < (1/2 : ℚ) ∧ (1/2 : ℚ) < 3/5) :=
  ⟨(C9_threshold_line (fun _ => true) "t" "v" doctor_info none none []).1,
   ((C9_threshold_line (fun _ => true) "t" "v" doctor_info none none []).2.2.2 (1/2)).2.2⟩

end DiabetesApp
